import Mathlib

/-!
Shallow embedding of `lytest/kdb_xor.py`: the layout-difference engine of the
lytest regression-testing harness.  The module picks a geometry backend
when first loaded (klayout.db, then phidl/gdspy, then the external klayout
binary)
and exposes `run_xor`, which loads two layout files, validates structural
compatibility (layer set, top-cell names, database unit) and then runs a
per-topcell, per-layer XOR-and-erode comparison.

Modelling choices:
 - A klayout `Region` is modelled as a finite set of integer grid points
   (polygon area sampled at database-unit resolution).  XOR is symmetric
   difference; `Region.size(-t)` (erosion) keeps a point only when its whole
   Chebyshev `t`-neighbourhood is inside the region, which captures the two
   facts the spec relies on: erosion never grows a region and a larger
   erosion distance removes at least as much.
 - Database units are rationals (the Python floats only ever enter an order
   comparison against 1e-6, which ℚ models faithfully).
 - Exceptions become `Except` values; the single exception class
   `GeometryDifference` of the source becomes the single constructor of
   `LytestError`.
 - External collaborators (the gdspy boolean kernel, GDS file loading, the
   klayout subprocess) are parameters of the functions that call them.
-/

deriving instance DecidableEq for Except

/-- A klayout layer info: a (layer number, datatype) pair. -/
structure LayerInfo where
  number : Int
  datatype : Int
deriving DecidableEq, Repr

/-- A region: finite set of occupied grid points on one layer of one cell. -/
abbrev Region := Finset (Int × Int)

/-- A top cell: a name plus its (recursively gathered) geometry per layer.
`geom` models what `kdb.Region(cell.begin_shapes_rec(layer))` collects. -/
structure Cell where
  name : String
  geom : List (LayerInfo × Region)
deriving DecidableEq

/-- A loaded layout: its layer list, its top cells, and its database unit. -/
structure Layout where
  layers : List LayerInfo
  cells : List Cell
  dbu : ℚ
deriving DecidableEq

/-- The single exception class of `kdb_xor.py` (line 18): every failure of
`run_xor`, structural or geometric, is raised as `GeometryDifference`. -/
inductive LytestError where
  | GeometryDifference (msg : String)
deriving DecidableEq, Repr

/-- `Layout.find_layer(info)`: the layer of this layout matching `info`,
or none. -/
def Layout.findLayer (l : Layout) (info : LayerInfo) : Option LayerInfo :=
  l.layers.find? (fun x => x = info)

/-- `Layout.cell(name)`: lookup of a top cell by name.  In every reachable
call the name comes from the sorted-equal top-cell check, so the lookup
succeeds; the default empty cell is never used there. -/
def Layout.cellD (l : Layout) (n : String) : Cell :=
  (l.cells.find? (fun c => c.name = n)).getD ⟨n, []⟩

/-- `kdb.Region(tc.begin_shapes_rec(ll))`: all geometry of the cell on that
layer (empty region when the layer holds no shapes). -/
def regionFor (c : Cell) (l : LayerInfo) : Region :=
  (c.geom.filter (fun e => e.1 = l)).foldr (fun e acc => e.2 ∪ acc) ∅

/-- `r1 ^ r2`: symmetric difference of two regions. -/
def regionXor (a b : Region) : Region :=
  (a \ b) ∪ (b \ a)

/-- Chebyshev ball of radius `t` around the origin, as offset vectors. -/
def offsets (t : Nat) : Finset (Int × Int) :=
  Finset.Icc (-(t : Int)) (t : Int) ×ˢ Finset.Icc (-(t : Int)) (t : Int)

/-- `Region.size(-t)` for `t ≥ 0`: erosion.  A point survives when every
point within Chebyshev distance `t` of it is in the region. -/
def erode (r : Region) (t : Nat) : Region :=
  r.filter (fun p => ∀ d ∈ offsets t, (p.1 + d.1, p.2 + d.2) ∈ r)

/-- Lines 68-69 of `run_xor`: the erosion step is applied only when the
tolerance is positive. -/
def sizeStep (r : Region) (tolerance : Int) : Region :=
  if tolerance > 0 then erode r tolerance.toNat else r

/-- Render a layer info the way klayout prints it ("1/0"). -/
def layerStr (li : LayerInfo) : String :=
  toString li.number ++ "/" ++ toString li.datatype

/-- Render a database unit (a rational) for an error message. -/
def dbuStr (d : ℚ) : String :=
  toString d.num ++ "/" ++ toString d.den

/-- Message of lines 35 and 42: a layer of one layout is absent from the
other; it names the offending layer, the layout that has it and the layout
that lacks it. -/
def layerMissingMsg (li : LayerInfo) (fileHas fileLacks : String) : String :=
  "Layer " ++ layerStr li ++ " of layout " ++ fileHas ++
    " not present in layout " ++ fileLacks ++ "."

/-- Message of line 50: top-cell name lists differ; it lists both sorted
name sequences. -/
def topcellMsg (names1 names2 : List String) : String :=
  "Missing topcell on one of the layouts, or name differs:\n" ++
    toString names1 ++ "\n" ++ toString names2

/-- Message of line 57: database units differ; it names both files and both
database-unit values. -/
def dbuMsg (file1 : String) (d1 : ℚ) (file2 : String) (d2 : ℚ) : String :=
  "Database unit of layout " ++ file1 ++ " (" ++ dbuStr d1 ++
    ") differs from that of layout " ++ file2 ++ " (" ++ dbuStr d2 ++ ")."

/-- Message of lines 80, 97 and 135: the layouts differ geometrically. -/
def diffMsg (file1 file2 : String) : String :=
  "Differences found between layouts " ++ file1 ++ " and " ++ file2

/-- First loop of `run_xor` (lines 30-36): for each layer of layout 1, find
the matching layer of layout 2 and collect the pair; raise on the first
layer of layout 1 absent from layout 2. -/
def buildLayerPairs (file1 file2 : String) (l2 : Layout) :
    List LayerInfo → Except LytestError (List (LayerInfo × LayerInfo))
  | [] => .ok []
  | li :: rest =>
    match l2.findLayer li with
    | none => .error (.GeometryDifference (layerMissingMsg li file1 file2))
    | some ll2 =>
      match buildLayerPairs file1 file2 l2 rest with
      | .error e => .error e
      | .ok tail => .ok ((li, ll2) :: tail)

/-- Second loop of `run_xor` (lines 38-42): raise on the first layer of
layout 2 absent from layout 1. -/
def checkLayers2 (file1 file2 : String) (l1 : Layout) :
    List LayerInfo → Except LytestError Unit
  | [] => .ok ()
  | li :: rest =>
    match l1.findLayer li with
    | none => .error (.GeometryDifference (layerMissingMsg li file2 file1))
    | some _ => checkLayers2 file1 file2 l1 rest

/-- Lines 44-53 of `run_xor`: sort both top-cell name lists, require them
equal, and pair up the cells by name. -/
def checkTopcells (l1 l2 : Layout) : Except LytestError (List (Cell × Cell)) :=
  let tc1Names := List.insertionSort (fun a b => a ≤ b) (l1.cells.map Cell.name)
  let tc2Names := List.insertionSort (fun a b => a ≤ b) (l2.cells.map Cell.name)
  if tc1Names = tc2Names then
    .ok (tc1Names.map (fun n => (l1.cellD n, l2.cellD n)))
  else
    .error (.GeometryDifference (topcellMsg tc1Names tc2Names))

/-- The epsilon of line 56. -/
def dbuEps : ℚ := 1 / 1000000

/-- Lines 55-57 of `run_xor`: the database-unit check.  Note the source
compares the signed difference `l1.dbu - l2.dbu` against 1e-6, without an
absolute value. -/
def checkDbu (file1 file2 : String) (l1 l2 : Layout) : Except LytestError Unit :=
  if l1.dbu - l2.dbu > dbuEps then
    .error (.GeometryDifference (dbuMsg file1 l1.dbu file2 l2.dbu))
  else
    .ok ()

/-- One iteration of the inner loop (lines 63-71): gather both regions, XOR
them, erode by the tolerance when positive, and test non-emptiness. -/
def pairDiffers (tcs : Cell × Cell) (lls : LayerInfo × LayerInfo)
    (tolerance : Int) : Bool :=
  let r1 := regionFor tcs.1 lls.1
  let r2 := regionFor tcs.2 lls.2
  let rxor := regionXor r1 r2
  decide (sizeStep rxor tolerance ≠ ∅)

/-- Lines 60-77 of `run_xor`: the nested loops over top-cell pairs (outer)
and layer pairs (inner), accumulating the `diff` flag; the flag is set on a
non-empty eroded XOR and never reset, and no iteration is skipped. -/
def geometricPass (topcellPairs : List (Cell × Cell))
    (layerPairs : List (LayerInfo × LayerInfo)) (tolerance : Int) : Bool :=
  topcellPairs.foldl (fun diff tcs =>
    layerPairs.foldl (fun diff lls =>
      if pairDiffers tcs lls tolerance then true else diff) diff) false

/-- `run_xor(file1, file2, tolerance)` of lines 22-80, with the two already
loaded layouts passed explicitly (file reading is an external collaborator;
the file names are kept for the error messages).  The `verbose` flag of the
source only controls printing and cannot change the returned value, so it is
dropped.  Checks run in source order: layer set both ways, top-cell names,
database unit, then the geometric pass; a set `diff` flag raises
`GeometryDifference` at the end. -/
def run_xor (file1 file2 : String) (l1 l2 : Layout) (tolerance : Int) :
    Except LytestError Unit :=
  match buildLayerPairs file1 file2 l2 l1.layers with
  | .error e => .error e
  | .ok layerPairs =>
    match checkLayers2 file1 file2 l1 l2.layers with
    | .error e => .error e
    | .ok () =>
      match checkTopcells l1 l2 with
      | .error e => .error e
      | .ok topcellPairs =>
        match checkDbu file1 file2 l1 l2 with
        | .error e => .error e
        | .ok () =>
          if geometricPass topcellPairs layerPairs tolerance then
            .error (.GeometryDifference (diffMsg file1 file2))
          else
            .ok ()

/-- The three geometry backends of the module: `klayout.db` in process,
the phidl/gdspy polygon-boolean pair, and the external klayout binary driven
through `run_xor_pya` (the "using_macros" path of the source). -/
inductive Backend where
  | kdb
  | phidl
  | pya
deriving DecidableEq, Repr

/-- Lines 5-15: the import-time probe.  `import klayout.db` is tried first;
on ImportError `import phidl, gdspy` is tried and sets `using_phidl`; if
that also fails, `using_macros` is set.  Lines 100-101 and 138-139 then bind
`run_xor` accordingly.  The availability of the external klayout binary is
never probed. -/
def selectBackend (kdbImportOk phidlImportOk : Bool) : Backend :=
  if kdbImportOk then .kdb
  else if phidlImportOk then .phidl
  else .pya

/-- Modelled from the spec: the backend selector the specification
describes, probing in the priority order (a) in-process geometry library,
(b) external process-based geometry tool, (c) polygon-boolean library pair,
and failing (`none`) when no engine is available.  This definition exists
only to be compared with `selectBackend`, the selector the source
implements. -/
def selectBackendSpec (kdbAvail externalToolAvail phidlAvail : Bool) :
    Option Backend :=
  if kdbAvail then some .kdb
  else if externalToolAvail then some .pya
  else if phidlAvail then some .phidl
  else none

/-- The exception classes that can escape `run_xor_pya`: the builtin
`FileNotFoundError` (re-raised with an amended message) and
`GeometryDifference`. -/
inductive PyaError where
  | FileNotFoundError (msg : String)
  | GeometryDifference (msg : String)
deriving DecidableEq, Repr

/-- Outcome of the `subprocess.check_output` call in `run_xor_pya`: the
klayout executable was not found on the path, or it ran and exited with the
given code. -/
inductive LaunchResult where
  | notFound (osMsg : String)
  | exited (code : Nat)
deriving DecidableEq, Repr

/-- The guidance appended on line 93 to a FileNotFoundError message. -/
def klayoutGuidance : String :=
  "\nYou need to alias klayout. See README for instructions"

/-- `run_xor_pya` (lines 83-97): build the klayout command line and run it.
A FileNotFoundError from the launch (missing executable) is re-raised with
the guidance text appended to its message — it stays a FileNotFoundError.
A non-zero exit of the tool raises `GeometryDifference`; exit 0 returns
normally.  The subprocess outcome is a parameter. -/
def run_xor_pya (file1 file2 : String) (tolerance : Int)
    (launch : LaunchResult) : Except PyaError Unit :=
  match launch with
  | .notFound osMsg =>
    .error (.FileNotFoundError (osMsg ++ klayoutGuidance))
  | .exited code =>
    if code ≠ 0 then
      .error (.GeometryDifference (diffMsg file1 file2))
    else
      .ok ()

/-- A polygon of the phidl backend: a list of vertices. -/
abbrev PhidlPoly := List (Int × Int)

/-- A phidl device as `get_polygons(by_spec=True)` exposes it: an
association of (layer, datatype) keys to polygon lists. -/
abbrev Device := List (LayerInfo × List PhidlPoly)

/-- The layer keys of a device. -/
def keysOf (d : Device) : List LayerInfo := d.map Prod.fst

/-- `A_polys[layer]`: the polygons of a device on one layer. -/
def polysFor (d : Device) (l : LayerInfo) : List PhidlPoly :=
  ((d.find? (fun e => e.1 = l)).map Prod.snd).getD []

/-- The type of `gdspy.fast_boolean` restricted to how line 118 calls it:
two polygon lists, a precision and a max-points cap, returning `none` for an
empty result.  The kernel itself is an external collaborator. -/
abbrev FastBoolean := List PhidlPoly → List PhidlPoly → ℚ → Nat → Option (List PhidlPoly)

/-- `xor_polygons_phidl` (lines 104-127): over the union of the two layer
key sets, XOR the polygon lists where the layer is on both sides (with
precision 0.001 and max_points 4000), take the one side where it is on one
side only, and add every non-none result to the output device. -/
def xor_polygons_phidl (fastBoolean : FastBoolean) (A B : Device) : Device :=
  let allLayers :=
    keysOf A ++ (keysOf B).filter (fun l => decide (l ∉ keysOf A))
  allLayers.foldl (fun D layer =>
    let p : Option (List PhidlPoly) :=
      if layer ∈ keysOf A ∧ layer ∈ keysOf B then
        fastBoolean (polysFor A layer) (polysFor B layer) (1 / 1000) 4000
      else if layer ∈ keysOf A then some (polysFor A layer)
      else if layer ∈ keysOf B then some (polysFor B layer)
      else none
    match p with
    | some pp => D ++ [(layer, pp)]
    | none => D) []

/-- `run_xor_phidl` (lines 130-135): import both files, XOR them layer by
layer, and raise `GeometryDifference` when the XOR device holds any
elements.  GDS import is a parameter; the `tolerance` and `verbose`
parameters of the source are kept to show they are unused. -/
def run_xor_phidl (importGds : String → Device) (fastBoolean : FastBoolean)
    (file1 file2 : String) (tolerance : Int) (verbose : Bool) :
    Except LytestError Unit :=
  let TOP1 := importGds file1
  let TOP2 := importGds file2
  let XOR := xor_polygons_phidl fastBoolean TOP1 TOP2
  if XOR.length > 0 then
    .error (.GeometryDifference (diffMsg file1 file2))
  else
    .ok ()

/-! ### Concrete layouts used by witnesses and counterexamples -/

/-- A layout with layers (1,0) and (2,0) and one unit of geometry. -/
def wLayA : Layout :=
  ⟨[⟨1, 0⟩, ⟨2, 0⟩], [⟨"TOP", [(⟨1, 0⟩, {(0, 0)})]⟩], 1 / 1000⟩

/-- A layout with layer (1,0) only and the same geometry as `wLayA`. -/
def wLayB : Layout :=
  ⟨[⟨1, 0⟩], [⟨"TOP", [(⟨1, 0⟩, {(0, 0)})]⟩], 1 / 1000⟩

/-- A layout with one layer and one occupied grid point in its top cell. -/
def wLayC : Layout :=
  ⟨[⟨1, 0⟩], [⟨"TOP", [(⟨1, 0⟩, {(0, 0)})]⟩], 1 / 1000⟩

/-- Like `wLayC` but with no geometry on the layer. -/
def wLayD : Layout :=
  ⟨[⟨1, 0⟩], [⟨"TOP", []⟩], 1 / 1000⟩

/-- Like `wLayC` but with a database unit larger by 1e-5. -/
def wLayE : Layout :=
  ⟨[⟨1, 0⟩], [⟨"TOP", [(⟨1, 0⟩, {(0, 0)})]⟩], 1 / 1000 + 1 / 100000⟩

/-! ### Helper lemmas -/

theorem mem_offsets {t : Nat} {d : Int × Int} :
    d ∈ offsets t ↔
      -(t : Int) ≤ d.1 ∧ d.1 ≤ (t : Int) ∧ -(t : Int) ≤ d.2 ∧ d.2 ≤ (t : Int) := by
  unfold offsets
  rw [Finset.mem_product, Finset.mem_Icc, Finset.mem_Icc]
  tauto

theorem offsets_mono {t u : Nat} (h : t ≤ u) : offsets t ⊆ offsets u := by
  intro d hd
  rw [mem_offsets] at hd ⊢
  omega

theorem erode_subset (r : Region) (t : Nat) : erode r t ⊆ r :=
  Finset.filter_subset _ _

theorem erode_antitone (r : Region) {t u : Nat} (h : t ≤ u) :
    erode r u ⊆ erode r t := by
  intro p hp
  unfold erode at hp ⊢
  rw [Finset.mem_filter] at hp ⊢
  exact ⟨hp.1, fun d hd => hp.2 d (offsets_mono h hd)⟩

theorem erode_empty (t : Nat) : erode (∅ : Region) t = ∅ := by
  unfold erode
  exact Finset.filter_empty _

theorem regionXor_self (r : Region) : regionXor r r = ∅ := by
  unfold regionXor
  simp

theorem sizeStep_empty (tol : Int) : sizeStep (∅ : Region) tol = ∅ := by
  unfold sizeStep
  split
  · exact erode_empty _
  · rfl

theorem sizeStep_antitone (r : Region) {t u : Int} (h : t ≤ u) :
    sizeStep r u ⊆ sizeStep r t := by
  unfold sizeStep
  by_cases h1 : t > 0
  · have h2 : u > 0 := lt_of_lt_of_le h1 h
    rw [if_pos h1, if_pos h2]
    exact erode_antitone r (Int.toNat_le_toNat h)
  · rw [if_neg h1]
    by_cases h2 : u > 0
    · rw [if_pos h2]
      exact erode_subset r _
    · rw [if_neg h2]

theorem findLayer_eq {l : Layout} {info y : LayerInfo}
    (h : l.findLayer info = some y) : y = info := by
  unfold Layout.findLayer at h
  have hp := List.find?_some h
  exact of_decide_eq_true hp

theorem findLayer_isSome_of_mem {l : Layout} {info : LayerInfo}
    (h : info ∈ l.layers) : (l.findLayer info).isSome := by
  unfold Layout.findLayer
  rw [List.find?_isSome]
  exact ⟨info, h, by simp⟩

theorem buildLayerPairs_ok_of_found (f1 f2 : String) (l2 : Layout) :
    ∀ L : List LayerInfo, (∀ li ∈ L, (l2.findLayer li).isSome) →
      ∃ ps, buildLayerPairs f1 f2 l2 L = .ok ps ∧
        ∀ p ∈ ps, p.2 = p.1 ∧ p.1 ∈ L
  | [], _ => ⟨[], rfl, by simp⟩
  | li :: rest, h => by
    have hli := h li (by simp)
    cases hfind : l2.findLayer li with
    | none => rw [hfind] at hli; simp at hli
    | some y =>
      obtain ⟨ps, hps, hall⟩ :=
        buildLayerPairs_ok_of_found f1 f2 l2 rest
          (fun x hx => h x (List.mem_cons_of_mem _ hx))
      refine ⟨(li, y) :: ps, ?_, ?_⟩
      · unfold buildLayerPairs
        rw [hfind, hps]
      · intro p hp
        rcases List.mem_cons.mp hp with h1 | h1
        · subst h1
          exact ⟨findLayer_eq hfind, by simp⟩
        · exact ⟨(hall p h1).1, List.mem_cons_of_mem _ (hall p h1).2⟩

theorem buildLayerPairs_error_of_missing (f1 f2 : String) (l2 : Layout) :
    ∀ L : List LayerInfo, (∃ li ∈ L, l2.findLayer li = none) →
      ∃ li, li ∈ L ∧ l2.findLayer li = none ∧
        buildLayerPairs f1 f2 l2 L =
          .error (.GeometryDifference (layerMissingMsg li f1 f2))
  | [], h => by simp at h
  | li :: rest, h => by
    cases hfind : l2.findLayer li with
    | none =>
      refine ⟨li, by simp, hfind, ?_⟩
      unfold buildLayerPairs
      rw [hfind]
    | some y =>
      have hrest : ∃ x ∈ rest, l2.findLayer x = none := by
        obtain ⟨x, hx, hnone⟩ := h
        rcases List.mem_cons.mp hx with h1 | h1
        · subst h1; rw [hfind] at hnone; exact absurd hnone (by simp)
        · exact ⟨x, h1, hnone⟩
      obtain ⟨x, hx, hnone, heq⟩ :=
        buildLayerPairs_error_of_missing f1 f2 l2 rest hrest
      refine ⟨x, List.mem_cons_of_mem _ hx, hnone, ?_⟩
      unfold buildLayerPairs
      rw [hfind, heq]

theorem checkLayers2_ok_of_found (f1 f2 : String) (l1 : Layout) :
    ∀ L : List LayerInfo, (∀ li ∈ L, (l1.findLayer li).isSome) →
      checkLayers2 f1 f2 l1 L = .ok ()
  | [], _ => rfl
  | li :: rest, h => by
    have hli := h li (by simp)
    cases hfind : l1.findLayer li with
    | none => rw [hfind] at hli; simp at hli
    | some y =>
      unfold checkLayers2
      rw [hfind]
      exact checkLayers2_ok_of_found f1 f2 l1 rest
        (fun x hx => h x (List.mem_cons_of_mem _ hx))

theorem checkLayers2_error_of_missing (f1 f2 : String) (l1 : Layout) :
    ∀ L : List LayerInfo, (∃ li ∈ L, l1.findLayer li = none) →
      ∃ li, li ∈ L ∧ l1.findLayer li = none ∧
        checkLayers2 f1 f2 l1 L =
          .error (.GeometryDifference (layerMissingMsg li f2 f1))
  | [], h => by simp at h
  | li :: rest, h => by
    cases hfind : l1.findLayer li with
    | none =>
      refine ⟨li, by simp, hfind, ?_⟩
      unfold checkLayers2
      rw [hfind]
    | some y =>
      have hrest : ∃ x ∈ rest, l1.findLayer x = none := by
        obtain ⟨x, hx, hnone⟩ := h
        rcases List.mem_cons.mp hx with h1 | h1
        · subst h1; rw [hfind] at hnone; exact absurd hnone (by simp)
        · exact ⟨x, h1, hnone⟩
      obtain ⟨x, hx, hnone, heq⟩ :=
        checkLayers2_error_of_missing f1 f2 l1 rest hrest
      refine ⟨x, List.mem_cons_of_mem _ hx, hnone, ?_⟩
      unfold checkLayers2
      rw [hfind]
      exact heq

theorem foldl_flag {α : Type} (q : α → Bool) :
    ∀ (L : List α) (init : Bool),
      L.foldl (fun d x => if q x then true else d) init = (init || L.any q)
  | [], init => by simp
  | x :: xs, init => by
    simp only [List.foldl_cons, List.any_cons]
    rw [foldl_flag q xs]
    cases h : q x <;> simp [h]

theorem geometricPass_eq_any (tps : List (Cell × Cell))
    (lps : List (LayerInfo × LayerInfo)) (tol : Int) :
    geometricPass tps lps tol =
      tps.any (fun tcs => lps.any (fun lls => pairDiffers tcs lls tol)) := by
  unfold geometricPass
  have h1 : (fun (diff : Bool) (tcs : Cell × Cell) =>
      lps.foldl (fun d lls => if pairDiffers tcs lls tol then true else d) diff)
      = fun diff tcs =>
          if lps.any (fun lls => pairDiffers tcs lls tol) then true else diff := by
    funext diff tcs
    rw [foldl_flag]
    cases h : lps.any (fun lls => pairDiffers tcs lls tol) <;> simp [h]
  rw [h1, foldl_flag]
  simp

theorem pairDiffers_self (tcs : Cell × Cell) (lls : LayerInfo × LayerInfo)
    (ht : tcs.2 = tcs.1) (hl : lls.2 = lls.1) (tol : Int) :
    pairDiffers tcs lls tol = false := by
  unfold pairDiffers
  rw [ht, hl]
  dsimp only
  rw [regionXor_self, sizeStep_empty]
  simp

theorem pairDiffers_mono (tcs : Cell × Cell) (lls : LayerInfo × LayerInfo)
    {t u : Int} (h : t ≤ u) (hd : pairDiffers tcs lls u = true) :
    pairDiffers tcs lls t = true := by
  unfold pairDiffers at hd ⊢
  rw [decide_eq_true_iff] at hd ⊢
  rw [← Finset.nonempty_iff_ne_empty] at hd ⊢
  exact hd.mono (sizeStep_antitone _ h)

theorem checkTopcells_self (l : Layout) :
    checkTopcells l l =
      .ok ((List.insertionSort (fun a b => a ≤ b) (l.cells.map Cell.name)).map
        (fun n => (l.cellD n, l.cellD n))) := by
  unfold checkTopcells
  exact if_pos rfl

theorem checkDbu_self (f1 f2 : String) (l : Layout) :
    checkDbu f1 f2 l l = .ok () := by
  unfold checkDbu
  rw [sub_self, if_neg (by norm_num [dbuEps])]

theorem run_xor_eq_of_checks (f1 f2 : String) (l1 l2 : Layout) (tol : Int)
    (lps : List (LayerInfo × LayerInfo)) (tps : List (Cell × Cell))
    (h1 : buildLayerPairs f1 f2 l2 l1.layers = .ok lps)
    (h2 : checkLayers2 f1 f2 l1 l2.layers = .ok ())
    (h3 : checkTopcells l1 l2 = .ok tps)
    (h4 : checkDbu f1 f2 l1 l2 = .ok ()) :
    run_xor f1 f2 l1 l2 tol =
      if geometricPass tps lps tol then
        .error (.GeometryDifference (diffMsg f1 f2))
      else
        .ok () := by
  unfold run_xor
  rw [h1, h2, h3, h4]

theorem run_xor_layer1_error (f1 f2 : String) (l1 l2 : Layout) (tol : Int)
    (e : LytestError)
    (h1 : buildLayerPairs f1 f2 l2 l1.layers = .error e) :
    run_xor f1 f2 l1 l2 tol = .error e := by
  unfold run_xor
  rw [h1]

theorem run_xor_layer2_error (f1 f2 : String) (l1 l2 : Layout) (tol : Int)
    (lps : List (LayerInfo × LayerInfo)) (e : LytestError)
    (h1 : buildLayerPairs f1 f2 l2 l1.layers = .ok lps)
    (h2 : checkLayers2 f1 f2 l1 l2.layers = .error e) :
    run_xor f1 f2 l1 l2 tol = .error e := by
  unfold run_xor
  rw [h1, h2]

theorem checkDbu_CD (f1 f2 : String) : checkDbu f1 f2 wLayC wLayD = .ok () := by
  unfold checkDbu
  rw [if_neg]
  norm_num [wLayC, wLayD, dbuEps]

theorem checkDbu_CE (f1 f2 : String) : checkDbu f1 f2 wLayC wLayE = .ok () := by
  unfold checkDbu
  rw [if_neg]
  norm_num [wLayC, wLayE, dbuEps]

theorem run_xor_wCD_err (f1 f2 : String) :
    run_xor f1 f2 wLayC wLayD 0 =
      .error (.GeometryDifference (diffMsg f1 f2)) := by
  have hf : wLayD.findLayer ⟨1, 0⟩ = some ⟨1, 0⟩ := by decide
  have hg : wLayC.findLayer ⟨1, 0⟩ = some ⟨1, 0⟩ := by decide
  have h1 : buildLayerPairs f1 f2 wLayD wLayC.layers =
      .ok [(⟨1, 0⟩, ⟨1, 0⟩)] := by
    simp [buildLayerPairs, hf]
  have h2 : checkLayers2 f1 f2 wLayC wLayD.layers = .ok () := by
    simp [checkLayers2, hg]
  have h3 : checkTopcells wLayC wLayD =
      .ok [(⟨"TOP", [(⟨1, 0⟩, {(0, 0)})]⟩, ⟨"TOP", []⟩)] := by decide
  rw [run_xor_eq_of_checks f1 f2 wLayC wLayD 0 _ _ h1 h2 h3 (checkDbu_CD f1 f2)]
  rw [if_pos (by decide)]

theorem run_xor_wCE_ok (f1 f2 : String) :
    run_xor f1 f2 wLayC wLayE 10 = .ok () := by
  have hf : wLayE.findLayer ⟨1, 0⟩ = some ⟨1, 0⟩ := by decide
  have hg : wLayC.findLayer ⟨1, 0⟩ = some ⟨1, 0⟩ := by decide
  have h1 : buildLayerPairs f1 f2 wLayE wLayC.layers =
      .ok [(⟨1, 0⟩, ⟨1, 0⟩)] := by
    simp [buildLayerPairs, hf]
  have h2 : checkLayers2 f1 f2 wLayC wLayE.layers = .ok () := by
    simp [checkLayers2, hg]
  have h3 : checkTopcells wLayC wLayE =
      .ok [(⟨"TOP", [(⟨1, 0⟩, {(0, 0)})]⟩, ⟨"TOP", [(⟨1, 0⟩, {(0, 0)})]⟩)] := by
    decide
  rw [run_xor_eq_of_checks f1 f2 wLayC wLayE 10 _ _ h1 h2 h3 (checkDbu_CE f1 f2)]
  rw [if_neg (by decide)]

theorem run_xor_wCC_ok (f1 f2 : String) :
    run_xor f1 f2 wLayC wLayC 0 = .ok () := by
  have hg : wLayC.findLayer ⟨1, 0⟩ = some ⟨1, 0⟩ := by decide
  have h1 : buildLayerPairs f1 f2 wLayC wLayC.layers =
      .ok [(⟨1, 0⟩, ⟨1, 0⟩)] := by
    simp [buildLayerPairs, hg]
  have h2 : checkLayers2 f1 f2 wLayC wLayC.layers = .ok () := by
    simp [checkLayers2, hg]
  have h3 : checkTopcells wLayC wLayC =
      .ok [(⟨"TOP", [(⟨1, 0⟩, {(0, 0)})]⟩, ⟨"TOP", [(⟨1, 0⟩, {(0, 0)})]⟩)] := by
    decide
  rw [run_xor_eq_of_checks f1 f2 wLayC wLayC 0 _ _ h1 h2 h3
    (checkDbu_self f1 f2 wLayC)]
  rw [if_neg (by decide)]

/-! ### Claim theorems -/

/-- C1: the claim says the unit check fails whenever |dbu1 - dbu2| exceeds
1e-6 and passes whenever it is at most 1e-6.  The source (kdb_xor.py line
56) compares the signed difference `l1.dbu - l2.dbu > 1e-6`, so when layout
2 has the larger database unit the check always passes, contradicting both
the claim and the adjacent source comment "Check that dbu are the same".
Failing input: two layouts identical except that the second database unit
is larger by 1e-5; the absolute difference 1e-5 exceeds 1e-6, yet the unit
check-and the whole comparison-returns normally. -/
theorem dbu_check_signed_bug :
    wLayE.dbu - wLayC.dbu = 1 / 100000 ∧
    (1 : ℚ) / 100000 > dbuEps ∧
    checkDbu "a.gds" "b.gds" wLayC wLayE = .ok () ∧
    run_xor "a.gds" "b.gds" wLayC wLayE 10 = .ok () := by
  refine ⟨by norm_num [wLayE, wLayC], by norm_num [dbuEps],
    checkDbu_CE "a.gds" "b.gds", run_xor_wCE_ok "a.gds" "b.gds"⟩

/-- C3 counterexample: the claim says structural incompatibilities raise a
`StructuralMismatch` error type distinct from `GeometryDifference`.  The
source defines a single exception class, `GeometryDifference` (line 18),
and raises it for every failure: here a layer-set mismatch (wLayA has layer
2/0, wLayB lacks it) and a beyond-tolerance geometric difference both
surface as the one and only `GeometryDifference` constructor, so no
type-based branching can tell them apart. -/
theorem structural_error_same_type_cx :
    run_xor "a.gds" "b.gds" wLayA wLayB 10 =
      .error (.GeometryDifference (layerMissingMsg ⟨2, 0⟩ "a.gds" "b.gds")) ∧
    run_xor "a.gds" "b.gds" wLayC wLayD 0 =
      .error (.GeometryDifference (diffMsg "a.gds" "b.gds")) := by
  exact ⟨by decide, run_xor_wCD_err "a.gds" "b.gds"⟩

/-- C3 amended: every failure of `run_xor`, whether a structural
incompatibility (layer set, top-cell names, database unit) or a
beyond-tolerance geometric difference, is raised as the single
`GeometryDifference` class; the code defines no `StructuralMismatch` type,
so library callers cannot branch on the error type to separate the two. -/
theorem all_failures_geometry_difference (f1 f2 : String) (l1 l2 : Layout)
    (tol : Int) (e : LytestError)
    (h : run_xor f1 f2 l1 l2 tol = .error e) :
    ∃ m, e = .GeometryDifference m := by
  cases e with
  | GeometryDifference m => exact ⟨m, rfl⟩

/-- Witness for the amended C3 theorem at a concrete layer-set mismatch. -/
theorem all_failures_geometry_difference_witness :
    ∃ m, LytestError.GeometryDifference (layerMissingMsg ⟨2, 0⟩ "wa.gds" "wb.gds") =
      .GeometryDifference m :=
  all_failures_geometry_difference "wa.gds" "wb.gds" wLayA wLayB 10
    (.GeometryDifference (layerMissingMsg ⟨2, 0⟩ "wa.gds" "wb.gds")) (by decide)

/-- C4 counterexample: the claim says the probe priority is (a) in-process
library, (b) external process tool, (c) polygon-boolean pair.  In the source
(lines 5-15) the try/except ladder is klayout.db, then phidl/gdspy, then
the external tool: with klayout.db unavailable and phidl importable the
module binds the phidl backend, while the claimed order (modelled by
`selectBackendSpec`, here with the external tool available) would bind the
external tool. -/
theorem backend_priority_cx :
    selectBackend false true = Backend.phidl ∧
    selectBackendSpec false true true = some Backend.pya ∧
    some (selectBackend false true) ≠ selectBackendSpec false true true := by
  decide

/-- C4 amended: the probe runs in the fixed priority order (a) in-process
geometry library, (b) polygon-boolean library pair, (c) external
process-based tool (bound unconditionally as the last resort, without
probing the tool itself); exactly one backend is bound for the process
lifetime and the selection is deterministic in the import outcomes. -/
theorem backend_selection (k p : Bool) :
    (selectBackend k p = Backend.kdb ↔ k = true) ∧
    (selectBackend k p = Backend.phidl ↔ (k = false ∧ p = true)) ∧
    (selectBackend k p = Backend.pya ↔ (k = false ∧ p = false)) := by
  cases k <;> cases p <;> decide

/-- C5 counterexample: the claim says that with no engine available the
system fails fast with a "no geometry backend available" error.  The spec
selector (`selectBackendSpec`) indeed yields no backend when nothing is
available, but the source selector binds the external-process backend
unconditionally whenever both imports fail (line 15 sets `using_macros`
with no probe of the klayout binary), so with nothing available it still
binds a backend and raises nothing at startup. -/
theorem no_backend_fail_fast_cx :
    selectBackendSpec false false false = none ∧
    selectBackend false false = Backend.pya ∧
    some (selectBackend false false) ≠ selectBackendSpec false false false := by
  decide

/-- C5 amended: when neither the in-process library nor the polygon-boolean
pair can be imported, the module silently binds the external-process
backend without checking that the external tool exists; no "no geometry
backend available" error is ever raised at startup, and the missing tool
surfaces only at call time as a re-raised FileNotFoundError
(see `run_xor_pya`). -/
theorem no_backend_silent_bind :
    selectBackend false false = Backend.pya ∧
    run_xor_pya "a.gds" "b.gds" 10 (.notFound "launch failed") =
      .error (.FileNotFoundError ("launch failed" ++ klayoutGuidance)) := by
  decide

/-- C9 counterexample: the claim says a missing external executable raises
a distinct `ToolingError`.  The source (lines 92-94) catches the
FileNotFoundError, appends guidance to its message, and re-raises the very
same FileNotFoundError; no ToolingError class exists, so the caller
receives the (amended) file-not-found error itself. -/
theorem pya_missing_tool_cx :
    run_xor_pya "a.gds" "b.gds" 10
        (.notFound "[Errno 2] No such file or directory: klayout") =
      .error (.FileNotFoundError
        ("[Errno 2] No such file or directory: klayout" ++ klayoutGuidance)) := by
  decide

/-- C9 amended: when the external-process backend is bound and the klayout
executable is absent, `run_xor_pya` fails by re-raising the original
FileNotFoundError with the guidance text "You need to alias klayout. See
README for instructions" appended to its message; there is no distinct
ToolingError type. -/
theorem pya_missing_tool_guidance (f1 f2 : String) (tol : Int)
    (osMsg : String) :
    run_xor_pya f1 f2 tol (.notFound osMsg) =
      .error (.FileNotFoundError (osMsg ++ klayoutGuidance)) := rfl

/-- C10: under the phidl backend the `tolerance` and `verbose` parameters
have no effect on the outcome: for any imported devices and any boolean
kernel, the result at (t1, v1) equals the result at (t2, v2); the verdict
is `GeometryDifference` exactly when the layer-wise XOR device holds any
elements and the call returns normally exactly when it holds none, with no
erosion and no layer-set, top-cell or database-unit check anywhere in the
path. -/
theorem phidl_tolerance_verbose_noninterference
    (importGds : String → Device) (fb : FastBoolean) (f1 f2 : String)
    (t1 t2 : Int) (v1 v2 : Bool) :
    run_xor_phidl importGds fb f1 f2 t1 v1 =
      run_xor_phidl importGds fb f1 f2 t2 v2 ∧
    (run_xor_phidl importGds fb f1 f2 t1 v1 =
        .error (.GeometryDifference (diffMsg f1 f2)) ↔
      0 < (xor_polygons_phidl fb (importGds f1) (importGds f2)).length) ∧
    (run_xor_phidl importGds fb f1 f2 t1 v1 = .ok () ↔
      (xor_polygons_phidl fb (importGds f1) (importGds f2)).length = 0) := by
  have hrw : ∀ (t : Int) (v : Bool), run_xor_phidl importGds fb f1 f2 t v =
      if 0 < (xor_polygons_phidl fb (importGds f1) (importGds f2)).length
      then .error (.GeometryDifference (diffMsg f1 f2))
      else .ok () := fun _ _ => rfl
  refine ⟨rfl, ?_, ?_⟩
  · rw [hrw]
    by_cases h : 0 < (xor_polygons_phidl fb (importGds f1) (importGds f2)).length
    · rw [if_pos h]
      simp [h]
    · rw [if_neg h]
      simp [h]
  · rw [hrw]
    by_cases h : 0 < (xor_polygons_phidl fb (importGds f1) (importGds f2)).length
    · rw [if_pos h]
      simp [Nat.pos_iff_ne_zero.mp h]
    · rw [if_neg h]
      simp [Nat.eq_zero_of_not_pos h]


/-- C2: for every layer of Layout 1 the comparison requires a matching
layer in Layout 2 and vice versa; if either side lacks a layer, `run_xor`
fails with the layer-missing `GeometryDifference` message naming the
offending layer, the layout that has it and the layout that lacks it.  The
theorem quantifies over all cell geometry of both layouts, so the failure
is independent of the shapes on any layer, and the error produced is a
layer message, not the geometric-difference message — the failure happens
before any geometry is compared. -/
theorem layer_check_bidirectional (f1 f2 : String) (l1 l2 : Layout)
    (tol : Int)
    (h : (∃ li ∈ l1.layers, l2.findLayer li = none) ∨
         (∃ li ∈ l2.layers, l1.findLayer li = none)) :
    ∃ li : LayerInfo,
      (li ∈ l1.layers ∧ l2.findLayer li = none ∧
        run_xor f1 f2 l1 l2 tol =
          .error (.GeometryDifference (layerMissingMsg li f1 f2))) ∨
      (li ∈ l2.layers ∧ l1.findLayer li = none ∧
        run_xor f1 f2 l1 l2 tol =
          .error (.GeometryDifference (layerMissingMsg li f2 f1))) := by
  by_cases h1 : ∃ li ∈ l1.layers, l2.findLayer li = none
  · obtain ⟨li, hmem, hnone, heq⟩ :=
      buildLayerPairs_error_of_missing f1 f2 l2 l1.layers h1
    exact ⟨li, .inl ⟨hmem, hnone, run_xor_layer1_error f1 f2 l1 l2 tol _ heq⟩⟩
  · have h2 : ∃ li ∈ l2.layers, l1.findLayer li = none := by
      rcases h with h | h
      · exact absurd h h1
      · exact h
    have hall : ∀ li ∈ l1.layers, (l2.findLayer li).isSome := by
      intro li hli
      cases hfind : l2.findLayer li with
      | none => exact absurd ⟨li, hli, hfind⟩ h1
      | some y => rfl
    obtain ⟨ps, hps, _⟩ := buildLayerPairs_ok_of_found f1 f2 l2 l1.layers hall
    obtain ⟨li, hmem, hnone, heq⟩ :=
      checkLayers2_error_of_missing f1 f2 l1 l2.layers h2
    exact ⟨li, .inr ⟨hmem, hnone,
      run_xor_layer2_error f1 f2 l1 l2 tol ps _ hps heq⟩⟩

/-- Witness for C2 at wLayA (layers 1/0 and 2/0) versus wLayB (layer 1/0
only): layer 2/0 of layout 1 is missing from layout 2 and the comparison
fails with the message naming it. -/
theorem layer_check_bidirectional_witness :
    ((∃ li ∈ wLayA.layers, wLayB.findLayer li = none) ∨
      (∃ li ∈ wLayB.layers, wLayA.findLayer li = none)) ∧
    (∃ li : LayerInfo,
      (li ∈ wLayA.layers ∧ wLayB.findLayer li = none ∧
        run_xor "wc2a.gds" "wc2b.gds" wLayA wLayB 10 =
          .error (.GeometryDifference (layerMissingMsg li "wc2a.gds" "wc2b.gds"))) ∨
      (li ∈ wLayB.layers ∧ wLayA.findLayer li = none ∧
        run_xor "wc2a.gds" "wc2b.gds" wLayA wLayB 10 =
          .error (.GeometryDifference (layerMissingMsg li "wc2b.gds" "wc2a.gds")))) :=
  ⟨by decide,
    layer_check_bidirectional "wc2a.gds" "wc2b.gds" wLayA wLayB 10 (by decide)⟩

/-- C6: once the structural checks pass (layer pairing both ways, top-cell
names, database unit), the geometric pass visits every (top-cell pair,
layer pair) in the Cartesian product — the nested fold of `geometricPass`,
cell-major then layer-minor, skips nothing and never short-circuits — each
pair is judged by `pairDiffers` (gather both regions, XOR, erode by the
tolerance when it is positive, test emptiness), and the verdict is the OR
of all pair results: `run_xor` fails with `GeometryDifference` naming both
input files exactly when the eroded XOR of some pair is non-empty, and returns
normally exactly when the eroded XOR of every pair is empty; membership in the
pair lists is order-insensitive, so iteration order cannot change the
verdict. -/
theorem geometric_pass_verdict (f1 f2 : String) (l1 l2 : Layout) (tol : Int)
    (lps : List (LayerInfo × LayerInfo)) (tps : List (Cell × Cell))
    (h1 : buildLayerPairs f1 f2 l2 l1.layers = .ok lps)
    (h2 : checkLayers2 f1 f2 l1 l2.layers = .ok ())
    (h3 : checkTopcells l1 l2 = .ok tps)
    (h4 : checkDbu f1 f2 l1 l2 = .ok ()) :
    (run_xor f1 f2 l1 l2 tol =
        .error (.GeometryDifference (diffMsg f1 f2)) ↔
      ∃ tcs ∈ tps, ∃ lls ∈ lps, pairDiffers tcs lls tol = true) ∧
    (run_xor f1 f2 l1 l2 tol = .ok () ↔
      ∀ tcs ∈ tps, ∀ lls ∈ lps, pairDiffers tcs lls tol = false) := by
  have hrun := run_xor_eq_of_checks f1 f2 l1 l2 tol lps tps h1 h2 h3 h4
  rw [geometricPass_eq_any] at hrun
  cases hb : tps.any (fun tcs => lps.any (fun lls => pairDiffers tcs lls tol)) with
  | true =>
    rw [hb] at hrun
    rw [if_pos rfl] at hrun
    have hex : ∃ tcs ∈ tps, ∃ lls ∈ lps, pairDiffers tcs lls tol = true := by
      rw [List.any_eq_true] at hb
      obtain ⟨tcs, htcs, hinner⟩ := hb
      rw [List.any_eq_true] at hinner
      obtain ⟨lls, hlls, hd⟩ := hinner
      exact ⟨tcs, htcs, lls, hlls, hd⟩
    constructor
    · exact ⟨fun _ => hex, fun _ => hrun⟩
    · constructor
      · intro hok
        rw [hrun] at hok
        exact absurd hok (by simp)
      · intro hall
        obtain ⟨tcs, htcs, lls, hlls, hd⟩ := hex
        rw [hall tcs htcs lls hlls] at hd
        exact absurd hd (by simp)
  | false =>
    rw [hb] at hrun
    rw [if_neg (by simp)] at hrun
    have hall : ∀ tcs ∈ tps, ∀ lls ∈ lps, pairDiffers tcs lls tol = false := by
      rw [List.any_eq_false] at hb
      intro tcs htcs lls hlls
      have hinner := hb tcs htcs
      rw [List.any_eq_true] at hinner
      push_neg at hinner
      have := hinner lls hlls
      simpa using this
    constructor
    · constructor
      · intro herr
        rw [hrun] at herr
        exact absurd herr (by simp)
      · intro hex
        obtain ⟨tcs, htcs, lls, hlls, hd⟩ := hex
        rw [hall tcs htcs lls hlls] at hd
        exact absurd hd (by simp)
    · exact ⟨fun _ => hall, fun _ => hrun⟩

/-- Witness for C6 at wLayC (a unit of geometry on layer 1/0 of cell TOP)
versus wLayD (no geometry), tolerance 0: the structural checks pass and
the verdict follows the pair results. -/
theorem geometric_pass_verdict_witness :
    (run_xor "wc6a.gds" "wc6b.gds" wLayC wLayD 0 =
        .error (.GeometryDifference (diffMsg "wc6a.gds" "wc6b.gds")) ↔
      ∃ tcs ∈ ([(⟨"TOP", [(⟨1, 0⟩, {(0, 0)})]⟩, ⟨"TOP", []⟩)] : List (Cell × Cell)),
        ∃ lls ∈ ([(⟨1, 0⟩, ⟨1, 0⟩)] : List (LayerInfo × LayerInfo)),
          pairDiffers tcs lls 0 = true) ∧
    (run_xor "wc6a.gds" "wc6b.gds" wLayC wLayD 0 = .ok () ↔
      ∀ tcs ∈ ([(⟨"TOP", [(⟨1, 0⟩, {(0, 0)})]⟩, ⟨"TOP", []⟩)] : List (Cell × Cell)),
        ∀ lls ∈ ([(⟨1, 0⟩, ⟨1, 0⟩)] : List (LayerInfo × LayerInfo)),
          pairDiffers tcs lls 0 = false) :=
  geometric_pass_verdict "wc6a.gds" "wc6b.gds" wLayC wLayD 0
    [(⟨1, 0⟩, ⟨1, 0⟩)] [(⟨"TOP", [(⟨1, 0⟩, {(0, 0)})]⟩, ⟨"TOP", []⟩)]
    (by simp [buildLayerPairs, show wLayD.findLayer ⟨1, 0⟩ = some ⟨1, 0⟩ from by decide])
    (by simp [checkLayers2, show wLayC.findLayer ⟨1, 0⟩ = some ⟨1, 0⟩ from by decide])
    (by decide) (checkDbu_CD "wc6a.gds" "wc6b.gds")

theorem run_xor_topcell_error (f1 f2 : String) (l1 l2 : Layout) (tol : Int)
    (lps : List (LayerInfo × LayerInfo)) (e : LytestError)
    (h1 : buildLayerPairs f1 f2 l2 l1.layers = .ok lps)
    (h2 : checkLayers2 f1 f2 l1 l2.layers = .ok ())
    (h3 : checkTopcells l1 l2 = .error e) :
    run_xor f1 f2 l1 l2 tol = .error e := by
  unfold run_xor
  rw [h1, h2, h3]

theorem run_xor_dbu_error (f1 f2 : String) (l1 l2 : Layout) (tol : Int)
    (lps : List (LayerInfo × LayerInfo)) (tps : List (Cell × Cell))
    (e : LytestError)
    (h1 : buildLayerPairs f1 f2 l2 l1.layers = .ok lps)
    (h2 : checkLayers2 f1 f2 l1 l2.layers = .ok ())
    (h3 : checkTopcells l1 l2 = .ok tps)
    (h4 : checkDbu f1 f2 l1 l2 = .error e) :
    run_xor f1 f2 l1 l2 tol = .error e := by
  unfold run_xor
  rw [h1, h2, h3, h4]

theorem geometricPass_mono (tps : List (Cell × Cell))
    (lps : List (LayerInfo × LayerInfo)) {t u : Int} (h : t ≤ u)
    (hf : geometricPass tps lps t = false) :
    geometricPass tps lps u = false := by
  rw [geometricPass_eq_any] at hf ⊢
  rw [List.any_eq_false] at hf ⊢
  intro tcs htcs
  have hin : lps.any (fun lls => pairDiffers tcs lls t) = false := by
    have hx := hf tcs htcs
    simpa using hx
  intro hcon
  rw [List.any_eq_true] at hcon
  obtain ⟨lls, hlls, hd⟩ := hcon
  have hdt := pairDiffers_mono tcs lls h hd
  rw [List.any_eq_false] at hin
  exact (hin lls hlls) hdt

/-- C7: comparing a layout to an exact copy of itself (the same loaded
layout on both sides) returns normally for every tolerance ≥ 0: every
layer of the layout matches itself, the sorted top-cell name lists are
equal, the database units subtract to zero, and every (cell, layer) pair
XORs a region with itself to the empty region, which stays empty under any
erosion. -/
theorem self_compare_ok (f1 f2 : String) (l : Layout) (tol : Int)
    (h : 0 ≤ tol) : run_xor f1 f2 l l tol = .ok () := by
  have hall : ∀ li ∈ l.layers, (l.findLayer li).isSome := by
    intro li hli
    exact findLayer_isSome_of_mem hli
  obtain ⟨ps, hps, hpairs⟩ := buildLayerPairs_ok_of_found f1 f2 l l.layers hall
  have h2 := checkLayers2_ok_of_found f1 f2 l l.layers hall
  have h3 := checkTopcells_self l
  have h4 := checkDbu_self f1 f2 l
  rw [run_xor_eq_of_checks f1 f2 l l tol ps _ hps h2 h3 h4]
  rw [if_neg]
  intro hcon
  rw [geometricPass_eq_any, List.any_eq_true] at hcon
  obtain ⟨tcs, htcs, hinner⟩ := hcon
  rw [List.any_eq_true] at hinner
  obtain ⟨lls, hlls, hd⟩ := hinner
  have htc : tcs.2 = tcs.1 := by
    rw [List.mem_map] at htcs
    obtain ⟨n, _, heq⟩ := htcs
    rw [← heq]
  have hll : lls.2 = lls.1 := (hpairs lls hlls).1
  rw [pairDiffers_self tcs lls htc hll tol] at hd
  exact absurd hd (by simp)

/-- Witness for C7 at the concrete layout wLayC and tolerance 10. -/
theorem self_compare_ok_witness :
    (0 : Int) ≤ 10 ∧ run_xor "wc7.gds" "wc7copy.gds" wLayC wLayC 10 = .ok () :=
  ⟨by decide, self_compare_ok "wc7.gds" "wc7copy.gds" wLayC 10 (by decide)⟩

/-- C8: for fixed inputs the verdict is monotone in the tolerance: if
`run_xor` returns normally at tolerance t, it returns normally at every
larger tolerance as well.  The structural checks do not depend on the tolerance,
and a pair whose eroded XOR is empty at erosion distance t stays empty at
any larger distance, since a larger erosion removes at least as many
points (`sizeStep_antitone`); so increasing the tolerance can only turn
"different" into "same", never the reverse. -/
theorem tolerance_monotone (f1 f2 : String) (l1 l2 : Layout) (t u : Int)
    (hle : t ≤ u) (hok : run_xor f1 f2 l1 l2 t = .ok ()) :
    run_xor f1 f2 l1 l2 u = .ok () := by
  cases hbl : buildLayerPairs f1 f2 l2 l1.layers with
  | error e =>
    rw [run_xor_layer1_error f1 f2 l1 l2 t e hbl] at hok
    exact absurd hok (by simp)
  | ok lps =>
    cases hc2 : checkLayers2 f1 f2 l1 l2.layers with
    | error e =>
      rw [run_xor_layer2_error f1 f2 l1 l2 t lps e hbl hc2] at hok
      exact absurd hok (by simp)
    | ok u2 =>
      cases u2
      cases hc3 : checkTopcells l1 l2 with
      | error e =>
        rw [run_xor_topcell_error f1 f2 l1 l2 t lps e hbl hc2 hc3] at hok
        exact absurd hok (by simp)
      | ok tps =>
        cases hc4 : checkDbu f1 f2 l1 l2 with
        | error e =>
          rw [run_xor_dbu_error f1 f2 l1 l2 t lps tps e hbl hc2 hc3 hc4] at hok
          exact absurd hok (by simp)
        | ok u3 =>
          cases u3
          rw [run_xor_eq_of_checks f1 f2 l1 l2 t lps tps hbl hc2 hc3 hc4] at hok
          rw [run_xor_eq_of_checks f1 f2 l1 l2 u lps tps hbl hc2 hc3 hc4]
          by_cases hgp : geometricPass tps lps t = true
          · rw [if_pos hgp] at hok
            exact absurd hok (by simp)
          · have hgpf : geometricPass tps lps t = false := by
              simpa using hgp
            have hgpu := geometricPass_mono tps lps hle hgpf
            rw [if_neg (by simp [hgpu])]

/-- Witness for C8: at the concrete equal pair wLayC/wLayC, no difference
at tolerance 0 implies no difference at tolerance 5. -/
theorem tolerance_monotone_witness :
    ((0 : Int) ≤ 5 ∧ run_xor "wc8a.gds" "wc8b.gds" wLayC wLayC 0 = .ok ()) ∧
    run_xor "wc8a.gds" "wc8b.gds" wLayC wLayC 5 = .ok () :=
  ⟨⟨by decide, run_xor_wCC_ok "wc8a.gds" "wc8b.gds"⟩,
    tolerance_monotone "wc8a.gds" "wc8b.gds" wLayC wLayC 0 5 (by decide)
      (run_xor_wCC_ok "wc8a.gds" "wc8b.gds")⟩
